import Mathlib

/-!
Verification development for the Turtleback Robotics intake API
(src/server.ts and src/routes/inquiries.ts): a shallow embedding of the
payload validation, the submission transaction, the notification
dispatch, and the admin query surface, together with theorems settling
the specified properties.
-/

namespace Turtleback

/-- A scalar JSON value, as it may occur inside an array field.
The two schemas only ever accept arrays of enumerated strings, so array
elements are modelled as scalars; a non-string element is representable
and is rejected by the schema, as in the source. -/
inductive JScalar where
  | str (s : String)
  | num (n : Int)
  | bool (b : Bool)
  | null
deriving DecidableEq, Repr

/-- A JSON-like value as delivered by the body parser. -/
inductive JVal where
  | str (s : String)
  | num (n : Int)
  | bool (b : Bool)
  | arr (xs : List JScalar)
  | null
deriving DecidableEq, Repr

/-- A parsed JSON object body: ordered field list, first binding wins. -/
abbrev RawBody := List (String × JVal)

/-- Field lookup in a body. -/
def getField (b : RawBody) (k : String) : Option JVal :=
  (b.find? (fun kv => kv.1 == k)).map (fun kv => kv.2)

/-- Field presence, as tested by the JavaScript `in` operator. -/
def hasField (b : RawBody) (k : String) : Bool :=
  (b.find? (fun kv => kv.1 == k)).isSome

/-- Abstraction of the Joi email-format check (the library predicate is not
part of this repository); no claim depends on its details. -/
def emailOk (s : String) : Bool :=
  s.toList.contains '@'

/-- One error or one value, per schema field. -/
def errsOf {α : Type} : Except String α → List String
  | .error e => [e]
  | .ok _ => []

/-- Joi required string with length bounds (Joi strings reject empty by
default, expressed here through the minimum bound). -/
def reqString (b : RawBody) (k : String) (minL maxL : Nat) : Except String String :=
  match getField b k with
  | none => .error (k ++ " is required")
  | some (.str s) =>
      if s.length < minL then .error (k ++ " length below minimum")
      else if maxL < s.length then .error (k ++ " length above maximum")
      else .ok s
  | some _ => .error (k ++ " must be a string")

/-- Joi required email field: string, email format, max length 320. -/
def reqEmail (b : RawBody) : Except String String :=
  match getField b "email" with
  | none => .error "email is required"
  | some (.str s) =>
      if s.length < 1 then .error "email is not allowed to be empty"
      else if ¬ emailOk s then .error "email must be a valid email"
      else if 320 < s.length then .error "email length above maximum"
      else .ok s
  | some _ => .error "email must be a string"

/-- Joi optional string with allow("", null): absent and null both
normalize to no value, matching the later `x ?? null` at the insert. -/
def optStringAllowEmpty (b : RawBody) (k : String) (maxL : Nat) :
    Except String (Option String) :=
  match getField b k with
  | none => .ok none
  | some .null => .ok none
  | some (.str s) =>
      if maxL < s.length then .error (k ++ " length above maximum")
      else .ok (some s)
  | some _ => .error (k ++ " must be a string")

/-- Joi optional string with a default (no empty string, no null). -/
def optStringDefault (b : RawBody) (k : String) (maxL : Nat) (dflt : String) :
    Except String String :=
  match getField b k with
  | none => .ok dflt
  | some (.str s) =>
      if s.length < 1 then .error (k ++ " is not allowed to be empty")
      else if maxL < s.length then .error (k ++ " length above maximum")
      else .ok s
  | some _ => .error (k ++ " must be a string")

/-- Joi integer field with bounds and a default. -/
def optIntField (b : RawBody) (k : String) (lo hi dflt : Int) : Except String Int :=
  match getField b k with
  | none => .ok dflt
  | some (.num n) =>
      if n < lo then .error (k ++ " below minimum")
      else if hi < n then .error (k ++ " above maximum")
      else .ok n
  | some _ => .error (k ++ " must be a number")

/-- Joi boolean field with a default. -/
def optBoolDefault (b : RawBody) (k : String) (dflt : Bool) : Except String Bool :=
  match getField b k with
  | none => .ok dflt
  | some (.bool v) => .ok v
  | some _ => .error (k ++ " must be a boolean")

/-- Joi consent field: required boolean that must be true. -/
def reqConsentTrue (b : RawBody) : Except String Bool :=
  match getField b "consent" with
  | none => .error "consent is required"
  | some (.bool true) => .ok true
  | some (.bool false) => .error "consent must be true"
  | some _ => .error "consent must be a boolean"

/-- The age-group code enumeration of the parent schema. -/
def ageGroupCodes : List String := ["6-9", "9-13", "13-16", "16+"]

/-- Joi ageGroups field: required array of enumerated codes, min length 1. -/
def reqAgeGroups (b : RawBody) : Except String (List String) :=
  match getField b "ageGroups" with
  | none => .error "ageGroups is required"
  | some (.arr xs) =>
      if xs.length < 1 then .error "ageGroups must contain at least 1 item"
      else
        match xs.mapM (fun v => match v with
          | JScalar.str s => if ageGroupCodes.contains s then some s else none
          | _ => none) with
        | some ss => .ok ss
        | none => .error "ageGroups contains an invalid value"
  | some _ => .error "ageGroups must be an array"

/-- The organization-type code enumeration of the partner schema. -/
def orgTypeCodes : List String :=
  ["government", "nonprofit", "school", "library", "corporate_sponsor",
   "faith_community", "other"]

/-- Joi orgType field: required enumerated string. -/
def reqOrgType (b : RawBody) : Except String String :=
  match getField b "orgType" with
  | none => .error "orgType is required"
  | some (.str s) =>
      if orgTypeCodes.contains s then .ok s
      else .error "orgType must be one of the allowed values"
  | some _ => .error "orgType must be a string"

/-- Joi orgTypeOther field: string up to 200 chars, required exactly when
the orgType field holds the string other. -/
def reqOrgTypeOther (b : RawBody) : Except String (Option String) :=
  match getField b "orgTypeOther" with
  | none =>
      if getField b "orgType" == some (.str "other") then
        .error "orgTypeOther is required"
      else .ok none
  | some (.str s) =>
      if s.length < 1 then .error "orgTypeOther is not allowed to be empty"
      else if 200 < s.length then .error "orgTypeOther length above maximum"
      else .ok (some s)
  | some _ => .error "orgTypeOther must be a string"

/-- The normalized parent payload produced by the parent schema. -/
structure ParentPayload where
  firstName : String
  lastName : String
  email : String
  phone : Option String
  numberOfKids : Int
  ageGroups : List String
  message : Option String
  newsletterOptIn : Bool
  consent : Bool
  source : String
  pagePath : Option String
deriving DecidableEq, Repr

/-- The normalized partner payload produced by the partner schema. -/
structure PartnerPayload where
  orgType : String
  orgTypeOther : Option String
  orgName : String
  firstName : String
  lastName : String
  email : String
  phone : Option String
  message : Option String
  consent : Bool
  source : String
  pagePath : Option String
deriving DecidableEq, Repr

/-- All parent-schema errors collected together (abortEarly false). -/
def parentErrs (b : RawBody) : List String :=
  errsOf (reqString b "firstName" 1 100) ++
  errsOf (reqString b "lastName" 1 100) ++
  errsOf (reqEmail b) ++
  errsOf (optStringAllowEmpty b "phone" 50) ++
  errsOf (optIntField b "numberOfKids" 1 12 1) ++
  errsOf (reqAgeGroups b) ++
  errsOf (optStringAllowEmpty b "message" 2000) ++
  errsOf (optBoolDefault b "newsletterOptIn" false) ++
  errsOf (reqConsentTrue b) ++
  errsOf (optStringDefault b "source" 120 "website") ++
  errsOf (optStringAllowEmpty b "pagePath" 512)

/-- The parent payload assembled from the individual field results; only
used when every field succeeded, so the fallbacks never fire. -/
def parentBuild (b : RawBody) : ParentPayload where
  firstName := ((reqString b "firstName" 1 100).toOption).getD ""
  lastName := ((reqString b "lastName" 1 100).toOption).getD ""
  email := ((reqEmail b).toOption).getD ""
  phone := ((optStringAllowEmpty b "phone" 50).toOption).getD none
  numberOfKids := ((optIntField b "numberOfKids" 1 12 1).toOption).getD 1
  ageGroups := ((reqAgeGroups b).toOption).getD []
  message := ((optStringAllowEmpty b "message" 2000).toOption).getD none
  newsletterOptIn := ((optBoolDefault b "newsletterOptIn" false).toOption).getD false
  consent := ((reqConsentTrue b).toOption).getD false
  source := ((optStringDefault b "source" 120 "website").toOption).getD "website"
  pagePath := ((optStringAllowEmpty b "pagePath" 512).toOption).getD none

/-- parentSchema.validate with stripUnknown and abortEarly false. -/
def parentValidate (b : RawBody) : Except (List String) ParentPayload :=
  if parentErrs b = [] then .ok (parentBuild b) else .error (parentErrs b)

/-- All partner-schema errors collected together (abortEarly false). -/
def partnerErrs (b : RawBody) : List String :=
  errsOf (reqOrgType b) ++
  errsOf (reqOrgTypeOther b) ++
  errsOf (reqString b "orgName" 2 200) ++
  errsOf (reqString b "firstName" 1 100) ++
  errsOf (reqString b "lastName" 1 100) ++
  errsOf (reqEmail b) ++
  errsOf (optStringAllowEmpty b "phone" 50) ++
  errsOf (optStringAllowEmpty b "message" 2000) ++
  errsOf (reqConsentTrue b) ++
  errsOf (optStringDefault b "source" 120 "partners-page") ++
  errsOf (optStringAllowEmpty b "pagePath" 512)

/-- The partner payload assembled from the individual field results. -/
def partnerBuild (b : RawBody) : PartnerPayload where
  orgType := ((reqOrgType b).toOption).getD ""
  orgTypeOther := ((reqOrgTypeOther b).toOption).getD none
  orgName := ((reqString b "orgName" 2 200).toOption).getD ""
  firstName := ((reqString b "firstName" 1 100).toOption).getD ""
  lastName := ((reqString b "lastName" 1 100).toOption).getD ""
  email := ((reqEmail b).toOption).getD ""
  phone := ((optStringAllowEmpty b "phone" 50).toOption).getD none
  message := ((optStringAllowEmpty b "message" 2000).toOption).getD none
  consent := ((reqConsentTrue b).toOption).getD false
  source := ((optStringDefault b "source" 120 "partners-page").toOption).getD "partners-page"
  pagePath := ((optStringAllowEmpty b "pagePath" 512).toOption).getD none

/-- partnerSchema.validate with stripUnknown and abortEarly false. -/
def partnerValidate (b : RawBody) : Except (List String) PartnerPayload :=
  if partnerErrs b = [] then .ok (partnerBuild b) else .error (partnerErrs b)

/-- The classification at the top of the POST handler:
isPartner iff the body has an orgType field or its source equals the
partner-page marker string. -/
def isPartnerBody (b : RawBody) : Bool :=
  hasField b "orgType" || (getField b "source" == some (.str "partners-page"))

/-! The relational state. Timestamps are modelled as a logical clock read
from the database state (the SQL now()); identifiers are generated from a
counter in the state (the SQL id default). -/

/-- A row of the age_groups reference table. -/
structure AgeGroupRow where
  id : String
  code : String
  label : String
  active : Bool
  sortOrder : Nat
deriving DecidableEq, Repr

/-- A row of the organization_types reference table. -/
structure OrgTypeRow where
  id : String
  code : String
  label : String
  active : Bool
deriving DecidableEq, Repr

/-- A row of the inquiries table. -/
structure InquiryRow where
  id : String
  kind : String
  firstName : String
  lastName : String
  fullName : String
  email : String
  phone : Option String
  message : Option String
  newsletterOptIn : Bool
  consent : Bool
  consentAt : Nat
  source : String
  pagePath : Option String
  status : String
  spamFlag : Bool
  createdAt : Nat
  updatedAt : Nat
deriving DecidableEq, Repr

/-- A row of the inquiry_parent detail table. -/
structure InquiryParentRow where
  inquiryId : String
  numberOfKids : Int
  primaryAgeGroupId : String
deriving DecidableEq, Repr

/-- A row of the inquiry_age_groups join table. -/
structure InquiryAgeGroupsRow where
  inquiryId : String
  ageGroupId : String
deriving DecidableEq, Repr

/-- A row of the inquiry_partner detail table. -/
structure InquiryPartnerRow where
  inquiryId : String
  orgTypeId : String
  orgTypeOther : Option String
  orgName : String
deriving DecidableEq, Repr

/-- A row of the newsletter_subscriptions table, keyed by email. -/
structure NewsletterRow where
  email : String
  firstName : String
  lastName : String
  status : String
  doubleOptIn : Bool
  source : String
  subscribedAt : Nat
  updatedAt : Nat
deriving DecidableEq, Repr

/-- The whole database state. -/
structure Db where
  inquiries : List InquiryRow
  inquiryParent : List InquiryParentRow
  inquiryAgeGroups : List InquiryAgeGroupsRow
  inquiryPartner : List InquiryPartnerRow
  ageGroups : List AgeGroupRow
  orgTypes : List OrgTypeRow
  newsletter : List NewsletterRow
  nextId : Nat
  now : Nat
deriving DecidableEq, Repr

/-- Generated row identifier. -/
def genId (n : Nat) : String := "id-" ++ toString n

/-- The JavaScript string trim, written structurally. -/
def trimChars (s : List Char) : List Char :=
  ((s.dropWhile (fun c => c == ' ')).reverse.dropWhile (fun c => c == ' ')).reverse

/-- Trim of a string. -/
def jsTrim (s : String) : String := ⟨trimChars s.toList⟩

instance : DecidableRel (fun a b : AgeGroupRow => a.sortOrder ≤ b.sortOrder) :=
  fun a b => Nat.decLe a.sortOrder b.sortOrder

instance : IsTotal AgeGroupRow (fun a b => a.sortOrder ≤ b.sortOrder) :=
  ⟨fun a b => Nat.le_total a.sortOrder b.sortOrder⟩

instance : IsTrans AgeGroupRow (fun a b => a.sortOrder ≤ b.sortOrder) :=
  ⟨fun _ _ _ h1 h2 => Nat.le_trans h1 h2⟩

/-- The age-group lookup inside the parent transaction:
SELECT id, code FROM age_groups WHERE code IN codes AND active = true
ORDER BY sort_order. -/
def resolveAgeGroups (table : List AgeGroupRow) (codes : List String) :
    List AgeGroupRow :=
  List.insertionSort (fun a b => a.sortOrder ≤ b.sortOrder)
    (table.filter (fun r => codes.contains r.code && r.active))

/-- The organization-type lookup inside the partner transaction:
SELECT id FROM organization_types WHERE code = c AND active = true LIMIT 1. -/
def resolveOrgType (table : List OrgTypeRow) (code : String) : Option OrgTypeRow :=
  table.find? (fun r => r.code == code && r.active)

/-- The newsletter upsert: INSERT ... ON CONFLICT (email) DO UPDATE SET
first_name, last_name, status = subscribed, updated_at = now(). -/
def upsertNewsletter (t : List NewsletterRow) (email fn ln src : String)
    (now : Nat) : List NewsletterRow :=
  if t.any (fun r => r.email == email) then
    t.map (fun r =>
      if r.email == email then
        { r with firstName := fn, lastName := ln, status := "subscribed",
                 updatedAt := now }
      else r)
  else
    t ++ [{ email := email, firstName := fn, lastName := ln,
            status := "subscribed", doubleOptIn := false, source := src,
            subscribedAt := now, updatedAt := now }]

/-- One INSERT ... ON CONFLICT DO NOTHING per resolved age group row. -/
def insertAgeGroupLinks (t : List InquiryAgeGroupsRow) (inqId : String)
    (rows : List AgeGroupRow) : List InquiryAgeGroupsRow :=
  rows.foldl (fun acc r =>
    if acc.any (fun x => x.inquiryId == inqId && x.ageGroupId == r.id) then acc
    else acc ++ [{ inquiryId := inqId, ageGroupId := r.id }]) t

/-- The inquiry row the parent INSERT produces. -/
def parentInquiryRow (db : Db) (p : ParentPayload) : InquiryRow :=
  { id := genId db.nextId, kind := "parent", firstName := p.firstName,
    lastName := p.lastName,
    fullName := jsTrim (p.firstName ++ " " ++ p.lastName),
    email := p.email, phone := p.phone, message := p.message,
    newsletterOptIn := p.newsletterOptIn, consent := true,
    consentAt := db.now, source := p.source, pagePath := p.pagePath,
    status := "new", spamFlag := false, createdAt := db.now,
    updatedAt := db.now }

/-- The parent-path transaction body (the prisma transaction, parent branch):
insert the inquiry row, resolve the age groups, fail when none resolve,
insert the detail row with the first resolved id as primary, insert the
join rows, and upsert the newsletter row when opted in. A thrown error
aborts the transaction (the caller keeps the pre-transaction state). -/
def parentTransaction (db : Db) (p : ParentPayload) :
    Except String (Db × String) :=
  let inqId := genId db.nextId
  let db1 := { db with inquiries := db.inquiries ++ [parentInquiryRow db p],
                       nextId := db.nextId + 1 }
  match resolveAgeGroups db1.ageGroups p.ageGroups with
  | [] => .error "Invalid age group codes"
  | a0 :: rest =>
      let det : InquiryParentRow :=
        { inquiryId := inqId, numberOfKids := p.numberOfKids,
          primaryAgeGroupId := a0.id }
      let db2 := { db1 with inquiryParent := db1.inquiryParent ++ [det] }
      let links := insertAgeGroupLinks db2.inquiryAgeGroups inqId (a0 :: rest)
      let db3 := { db2 with inquiryAgeGroups := links }
      let nl := upsertNewsletter db3.newsletter p.email p.firstName p.lastName p.source db3.now
      let db4 := if p.newsletterOptIn then { db3 with newsletter := nl } else db3
      .ok (db4, inqId)

/-- The partner detail row the INSERT produces: the free-text label is
stored only when the orgType code is the string other. -/
def partnerDetailRow (db : Db) (p : PartnerPayload) (org : OrgTypeRow) :
    InquiryPartnerRow :=
  { inquiryId := genId db.nextId, orgTypeId := org.id,
    orgTypeOther := if p.orgType = "other" then p.orgTypeOther else none,
    orgName := p.orgName }

/-- The inquiry row the partner INSERT produces. -/
def partnerInquiryRow (db : Db) (p : PartnerPayload) : InquiryRow :=
  { id := genId db.nextId, kind := "partner", firstName := p.firstName,
    lastName := p.lastName,
    fullName := jsTrim (p.firstName ++ " " ++ p.lastName),
    email := p.email, phone := p.phone, message := p.message,
    newsletterOptIn := false, consent := true, consentAt := db.now,
    source := p.source, pagePath := p.pagePath, status := "new",
    spamFlag := false, createdAt := db.now, updatedAt := db.now }

/-- The partner-path transaction body: insert the inquiry row, resolve the
organization type, fail when it does not resolve, insert the detail row
storing the free-text label only when the code is other. -/
def partnerTransaction (db : Db) (p : PartnerPayload) :
    Except String (Db × String) :=
  let inqId := genId db.nextId
  let db1 := { db with inquiries := db.inquiries ++ [partnerInquiryRow db p],
                       nextId := db.nextId + 1 }
  match resolveOrgType db1.orgTypes p.orgType with
  | none => .error "Invalid organization type"
  | some org =>
      let det := partnerDetailRow db p org
      .ok ({ db1 with inquiryPartner := db1.inquiryPartner ++ [det] }, inqId)

/-! The notification layer. Each outbound channel is an oracle supplied by
the environment; a channel call may fail with an error value, which is the
image of a thrown exception or a non-success response in the source. Every
dispatch function returns only the list of warning log lines it printed:
the try-catch blocks of the source make the functions total. -/

/-- Notification configuration read from the process environment. An env
variable is modelled as present-with-value; an empty string is falsy in
the source gates, handled by truthy below. Branding fields only shape
receipt text and are omitted. -/
structure NotifyEnv where
  slackWebhookUrl : Option String
  resendApiKey : Option String
  resendFrom : Option String
  resendTo : Option String
  smtpHost : Option String
  smtpUser : Option String
  smtpPass : Option String
  smtpTo : Option String
deriving DecidableEq, Repr

/-- JavaScript truthiness of a possibly-absent string env variable. -/
def truthy : Option String → Bool
  | none => false
  | some s => s != ""

/-- JavaScript `x || d` over an optional string. -/
def jsOr (o : Option String) (d : String) : String :=
  match o with
  | some s => if s = "" then d else s
  | none => d

/-- The outbound channel oracles: the global fetch (when available), the
Resend HTTP endpoint (ok-flag of the response), and the SMTP transport. -/
structure Channels where
  gfetchAvail : Bool
  fetch : String → String → Except String Unit
  resendPost : String → String → List String → Except String Bool
  smtpSend : List String → String → String → Except String Unit

/-- Split of a comma-separated recipient list with trimming, dropping
empty entries (the split-and-filter of the source). -/
def splitComma : List Char → List (List Char)
  | [] => [[]]
  | c :: rest =>
      let r := splitComma rest
      if c = ',' then [] :: r
      else (c :: r.headD []) :: r.tail

/-- Recipient list from an env value. -/
def splitRecipients (s : String) : List String :=
  (((splitComma s.toList).map trimChars).filter (fun cs => ¬ cs.isEmpty)).map
    (fun cs => String.mk cs)

/-- The Slack notifier: returns without contact when the webhook URL or
the global fetch is missing, otherwise posts and swallows any error. -/
def notify (env : NotifyEnv) (ch : Channels) (text : String) : List String :=
  if ¬ (truthy env.slackWebhookUrl && ch.gfetchAvail) then []
  else
    match ch.fetch (env.slackWebhookUrl.getD "") text with
    | .ok _ => []
    | .error e => ["[notify] slack error: " ++ e]

/-- The Resend email sender: gated on key, from, and a recipient source;
a non-ok response or an exception is logged and swallowed. -/
def sendEmail (env : NotifyEnv) (ch : Channels) (subject text : String)
    (toOverride : Option String) : List String :=
  if ¬ (truthy env.resendApiKey && truthy env.resendFrom &&
        (truthy env.resendTo || toOverride.isSome) && ch.gfetchAvail) then []
  else
    let recipients :=
      match toOverride with
      | some t => [t]
      | none => splitRecipients (env.resendTo.getD "")
    if recipients.isEmpty then []
    else
      match ch.resendPost subject text recipients with
      | .ok true => []
      | .ok false => ["[notify] resend error"]
      | .error e => ["[notify] resend exception: " ++ e]

/-- The SMTP email sender: gated on host, user, and password; any send
error is logged and swallowed. -/
def sendSMTPEmail (env : NotifyEnv) (ch : Channels) (rcpts : List String)
    (subject text : String) : List String :=
  if ¬ (truthy env.smtpHost && truthy env.smtpUser && truthy env.smtpPass)
  then []
  else
    match ch.smtpSend rcpts subject text with
    | .ok _ => []
    | .error e => ["[notify] smtp error: " ++ e]

/-- Truncation of the free-text message (message slice 0 500). -/
def take500 (s : String) : String := String.mk (s.toList.take 500)

/-- The internal parent summary text. -/
def parentSummary (p : ParentPayload) : String :=
  "New Parent Inquiry\nName: " ++ p.firstName ++ " " ++ p.lastName ++
  "\nEmail: " ++ p.email ++ "  Phone: " ++ jsOr p.phone "-" ++
  "\nKids: " ++ toString p.numberOfKids ++ "  Ages: " ++
  String.intercalate ", " p.ageGroups ++
  "\nMessage: " ++ take500 (p.message.getD "") ++
  "\nPage: " ++ jsOr p.pagePath "-" ++ "  Source: " ++ p.source

/-- The parent receipt body (composition abbreviated: the receipt wording
and markup are not load-bearing for any claim). -/
def parentReceipt (p : ParentPayload) : String :=
  "Hi " ++ p.firstName ++ ", thanks for your interest. Kids: " ++
  toString p.numberOfKids ++ " Age groups: " ++
  String.intercalate ", " p.ageGroups

/-- The internal partner summary text. -/
def partnerSummary (p : PartnerPayload) : String :=
  "New Partner Inquiry\nOrg: " ++ p.orgName ++ "  Type: " ++ p.orgType ++
  (match p.orgTypeOther with
   | some o => if p.orgType = "other" ∧ o ≠ "" then " (" ++ o ++ ")" else ""
   | none => "") ++
  "\nContact: " ++ p.firstName ++ " " ++ p.lastName ++ "  Email: " ++
  p.email ++ "  Phone: " ++ jsOr p.phone "-" ++
  "\nMessage: " ++ take500 (p.message.getD "") ++
  "\nPage: " ++ jsOr p.pagePath "-" ++ "  Source: " ++ p.source

/-- The partner receipt body (composition abbreviated as above). -/
def partnerReceipt (p : PartnerPayload) : String :=
  "Hi " ++ p.firstName ++ ", thanks for reaching out. Organization: " ++
  p.orgName ++ " Type: " ++ p.orgType

/-- The fire-and-forget dispatch after a committed parent transaction:
Slack, then either the SMTP pair (internal summary when SMTP_TO yields
recipients, plus the receipt) or the Resend pair. -/
def parentNotifications (env : NotifyEnv) (ch : Channels) (p : ParentPayload) :
    List String :=
  notify env ch (parentSummary p) ++
  (if truthy env.smtpHost && truthy env.smtpUser && truthy env.smtpPass then
    let internalTo := splitRecipients (env.smtpTo.getD "")
    (if internalTo.isEmpty then []
     else sendSMTPEmail env ch internalTo
       ("New Parent Inquiry — " ++ p.firstName ++ " " ++ p.lastName)
       (parentSummary p)) ++
    sendSMTPEmail env ch [p.email]
      "We received your inquiry — Turtleback Robotics Academy"
      (parentReceipt p)
  else
    sendEmail env ch ("New Parent Inquiry — " ++ p.firstName ++ " " ++ p.lastName)
      (parentSummary p) none ++
    sendEmail env ch "Thanks for your interest — Turtleback Robotics Academy"
      (parentReceipt p) (some p.email))

/-- The fire-and-forget dispatch after a committed partner transaction. -/
def partnerNotifications (env : NotifyEnv) (ch : Channels) (p : PartnerPayload) :
    List String :=
  notify env ch (partnerSummary p) ++
  (if truthy env.smtpHost && truthy env.smtpUser && truthy env.smtpPass then
    let internalTo := splitRecipients (env.smtpTo.getD "")
    (if internalTo.isEmpty then []
     else sendSMTPEmail env ch internalTo
       ("New Partner Inquiry — " ++ p.orgName) (partnerSummary p)) ++
    sendSMTPEmail env ch [p.email]
      "We received your partnership inquiry — Turtleback Robotics Academy"
      (partnerReceipt p)
  else
    sendEmail env ch ("New Partner Inquiry — " ++ p.orgName)
      (partnerSummary p) none ++
    sendEmail env ch "Thank you — Turtleback Robotics Academy"
      (partnerReceipt p) (some p.email))

/-- The responses the route handlers produce: created is 201 with the new
id, badRequest is 400 with the error list, serverError is the generic 500,
unauthorized is 401, okData is 200 with rows, ok is the bare 200,
invalidStatus is the 400 invalid_status, and notFound is a 404. -/
inductive Resp where
  | created (id : String)
  | badRequest (errors : List String)
  | serverError
  | unauthorized
  | okData (rows : List InquiryRow)
  | ok
  | invalidStatus
  | notFound
deriving DecidableEq, Repr

/-- The parent branch of the POST handler: validate, run the transaction
(keeping the incoming state on failure, which is the rollback), then fire
the notifications and answer 201. -/
def parentHandle (env : NotifyEnv) (ch : Channels) (db : Db) (b : RawBody) :
    Db × List String × Resp :=
  match parentValidate b with
  | .error es => (db, [], .badRequest es)
  | .ok p =>
      match parentTransaction db p with
      | .error e => (db, ["[inquiries] error: " ++ e], .serverError)
      | .ok (db2, inqId) =>
          (db2, parentNotifications env ch p, .created inqId)

/-- The partner branch of the POST handler. -/
def partnerHandle (env : NotifyEnv) (ch : Channels) (db : Db) (b : RawBody) :
    Db × List String × Resp :=
  match partnerValidate b with
  | .error es => (db, [], .badRequest es)
  | .ok p =>
      match partnerTransaction db p with
      | .error e => (db, ["[inquiries] error: " ++ e], .serverError)
      | .ok (db2, inqId) =>
          (db2, partnerNotifications env ch p, .created inqId)

/-- POST api inquiries: classify the body first, then validate against the
chosen schema and handle the matching branch. -/
def postInquiry (env : NotifyEnv) (ch : Channels) (db : Db) (b : RawBody) :
    Db × List String × Resp :=
  if isPartnerBody b then partnerHandle env ch db b
  else parentHandle env ch db b

/-! The admin query surface. The listing filters with SQL ILIKE, whose
pattern language has the percent and underscore wildcards and a backslash
escape; the matcher below implements that language, lowered on both sides
for the case-insensitivity of ILIKE (ASCII case folding stands in for the
locale lower of the database). -/

/-- ASCII lowering of a character list (ASCII case folding stands in for
the locale lower of the database and matches the basic-latin behavior of
the runtime toLowerCase). -/
def lowerStr (s : List Char) : List Char := s.map Char.toLower

/-- All suffixes of a list, longest first, ending with the empty one. -/
def suffixes : List Char → List (List Char)
  | [] => [[]]
  | c :: rest => (c :: rest) :: suffixes rest

/-- The LIKE pattern matcher: percent matches any run, underscore matches
one character, backslash escapes the next pattern character, and any other
character matches itself; a trailing lone backslash matches nothing (the
database rejects such a pattern). Recursion is structural on the pattern. -/
def likeMatch : List Char → List Char → Bool
  | [], s => s.isEmpty
  | c :: ps, s =>
      if c = '%' then (suffixes s).any (fun t => likeMatch ps t)
      else if c = '_' then
        match s with
        | [] => false
        | _ :: s2 => likeMatch ps s2
      else if c = '\\' then
        match ps with
        | [] => false
        | c2 :: ps2 =>
            match s with
            | [] => false
            | d :: s2 => c2 == d && likeMatch ps2 s2
      else
        match s with
        | [] => false
        | d :: s2 => c == d && likeMatch ps s2

/-- ILIKE of a column value against a pattern. -/
def ilike (s pat : String) : Bool :=
  likeMatch (lowerStr pat.toList) (lowerStr s.toList)

/-- Normalization of a query parameter as the handler reads it: the
or-undefined idiom turns an absent or empty value into no value. -/
def queryParam (o : Option String) : Option String :=
  match o with
  | some s => if s = "" then none else some s
  | none => none

/-- The text-query condition of the listing SQL: when no query is active
the condition is the true IS NULL branch, otherwise full name or email
must match the wrapped ILIKE pattern. -/
def qCondition (q : Option String) (r : InquiryRow) : Bool :=
  match q with
  | none => true
  | some qs =>
      ilike r.fullName ("%" ++ qs ++ "%") || ilike r.email ("%" ++ qs ++ "%")

instance : DecidableRel (fun a b : InquiryRow => b.createdAt ≤ a.createdAt) :=
  fun a b => Nat.decLe b.createdAt a.createdAt

/-- Newest-first ordering of rows (ORDER BY created_at DESC). -/
def sortNewestFirst (rows : List InquiryRow) : List InquiryRow :=
  List.insertionSort (fun a b => b.createdAt ≤ a.createdAt) rows

/-- GET admin listing, as the source runs it: two query branches, one with
a status equality conjunct and one without, each with the text condition,
ordered newest first and limited to 200 rows. -/
def adminList (db : Db) (statusQ qQ : Option String) : List InquiryRow :=
  let q := queryParam qQ
  match queryParam statusQ with
  | some st =>
      (sortNewestFirst (db.inquiries.filter
        (fun r => r.status == st && qCondition q r))).take 200
  | none =>
      (sortNewestFirst (db.inquiries.filter
        (fun r => qCondition q r))).take 200

/-- Boolean substring test on character lists. -/
def infixOfB (needle hay : List Char) : Bool :=
  (suffixes hay).any (fun t => needle.isPrefixOf t)

/-- Case-insensitive substring test on strings. -/
def containsCI (hay needle : String) : Bool :=
  infixOfB (lowerStr needle.toList) (lowerStr hay.toList)

/-- Modelled from the spec sentence for the listing contract: exactly the
rows satisfying the conjunction of the present filters, with the text
query matched as a case-insensitive substring of full name or email,
ordered newest first and capped at 200 rows. This definition follows the
words of the spec and is compared against adminList. -/
def adminListSpec (db : Db) (statusQ qQ : Option String) : List InquiryRow :=
  let q := queryParam qQ
  let st := queryParam statusQ
  (sortNewestFirst (db.inquiries.filter (fun r =>
    (match st with
     | some s => r.status == s
     | none => true) &&
    (match q with
     | some qs => containsCI r.fullName qs || containsCI r.email qs
     | none => true)))).take 200

/-- GET admin handler: the shared-secret header must equal the env token
(strict inequality of two possibly-absent strings), else the listing. -/
def adminListHandler (db : Db) (hdrToken envToken : Option String)
    (statusQ qQ : Option String) : Resp :=
  if hdrToken ≠ envToken then .unauthorized
  else .okData (adminList db statusQ qQ)

/-- The allowed status values of the PATCH handler. -/
def allowedStatuses : List String := ["new", "read", "archived"]

/-- PATCH admin status handler: token check, then the allowed-set check on
the or-empty status, then an unconditional UPDATE of the matching rows and
a bare ok, whether or not any row matched. -/
def setStatusHandler (db : Db) (hdrToken envToken : Option String)
    (idp : String) (bodyStatus : Option String) : Db × Resp :=
  if hdrToken ≠ envToken then (db, .unauthorized)
  else
    let status := bodyStatus.getD ""
    if allowedStatuses.contains status then
      ({ db with inquiries := db.inquiries.map (fun r =>
          if r.id = idp then { r with status := status, updatedAt := db.now }
          else r) }, .ok)
    else (db, .invalidStatus)

/-! Concrete fixtures used by the witnesses. -/

/-- A seeded age-group reference table: two active rows whose sort order
reverses their listing order, and one inactive row. -/
def sampleAgeGroups : List AgeGroupRow :=
  [{ id := "ag2", code := "9-13", label := "Nine to thirteen", active := true,
     sortOrder := 2 },
   { id := "ag1", code := "6-9", label := "Six to nine", active := true,
     sortOrder := 1 },
   { id := "ag4", code := "16+", label := "Sixteen plus", active := false,
     sortOrder := 4 }]

/-- A seeded organization-type reference table. -/
def sampleOrgTypes : List OrgTypeRow :=
  [{ id := "ot1", code := "school", label := "School", active := true },
   { id := "ot2", code := "other", label := "Other", active := true }]

/-- A database with seeded reference tables and nothing else. -/
def emptyDb : Db :=
  { inquiries := [], inquiryParent := [], inquiryAgeGroups := [],
    inquiryPartner := [], ageGroups := sampleAgeGroups,
    orgTypes := sampleOrgTypes, newsletter := [], nextId := 0, now := 5 }

/-- One persisted inquiry row. -/
def sampleInquiry : InquiryRow :=
  { id := "i1", kind := "parent", firstName := "John", lastName := "Smith",
    fullName := "John Smith", email := "j@x.co", phone := none,
    message := none, newsletterOptIn := false, consent := true,
    consentAt := 0, source := "website", pagePath := none, status := "bogus",
    spamFlag := false, createdAt := 3, updatedAt := 3 }

/-- A database holding the one sample inquiry. -/
def listDb : Db := { emptyDb with inquiries := [sampleInquiry] }

/-- An environment with no notification channel configured. -/
def noEnv : NotifyEnv :=
  { slackWebhookUrl := none, resendApiKey := none, resendFrom := none,
    resendTo := none, smtpHost := none, smtpUser := none, smtpPass := none,
    smtpTo := none }

/-- An environment with the Slack webhook configured. -/
def slackEnv : NotifyEnv := { noEnv with slackWebhookUrl := some "https://hook" }

/-- Channel oracles that always succeed. -/
def okChannels : Channels :=
  { gfetchAvail := true, fetch := fun _ _ => .ok (),
    resendPost := fun _ _ _ => .ok true, smtpSend := fun _ _ _ => .ok () }

/-- Channel oracles that always fail, standing for unreachable endpoints. -/
def failChannels : Channels :=
  { gfetchAvail := true, fetch := fun _ _ => .error "network down",
    resendPost := fun _ _ _ => .error "network down",
    smtpSend := fun _ _ _ => .error "network down" }

/-- A valid parent body, age groups listed against their sort order. -/
def parentBody : RawBody :=
  [("firstName", .str "Ann"), ("lastName", .str "Lee"),
   ("email", .str "ann@x.co"),
   ("ageGroups", .arr [.str "9-13", .str "6-9"]),
   ("consent", .bool true), ("newsletterOptIn", .bool true)]

/-! Claims about the admin token guard and the status filter. -/

/-- C9: with no x-admin-token header and no ADMIN_TOKEN env variable, both
admin handlers treat the request as authorized (absent compared to absent
is not unequal), so the 401 branch is not taken and the operation runs. -/
theorem c9_absent_token_and_env_authorizes (db : Db) (stq qq : Option String)
    (idp : String) (bs : Option String) :
    adminListHandler db none none stq qq = .okData (adminList db stq qq) ∧
    (setStatusHandler db none none idp bs).2 ≠ .unauthorized := by
  constructor
  · simp [adminListHandler]
  · simp only [setStatusHandler, ne_eq, not_true_eq_false, if_false]
    split
    · simp
    · simp

/-- C10: an authorized listing whose status parameter is a non-empty
string outside the allowed set is not rejected; it answers okData with
exactly the rows whose stored status equals that string (the filter runs
against the raw value), never a bad request and never invalid_status. -/
theorem c10_unknown_status_is_filtered_not_rejected (db : Db) (st : String)
    (tok : Option String) (h1 : st ≠ "")
    (_h2 : allowedStatuses.contains st = false) :
    adminListHandler db tok tok (some st) none =
      .okData ((sortNewestFirst
        (db.inquiries.filter (fun r => r.status == st))).take 200) ∧
    (∀ es, adminListHandler db tok tok (some st) none ≠ .badRequest es) ∧
    adminListHandler db tok tok (some st) none ≠ .invalidStatus := by
  have hmain : adminListHandler db tok tok (some st) none =
      .okData ((sortNewestFirst
        (db.inquiries.filter (fun r => r.status == st))).take 200) := by
    simp [adminListHandler, adminList, queryParam, h1, qCondition]
  refine ⟨hmain, fun es => ?_, ?_⟩
  · rw [hmain]; simp
  · rw [hmain]; simp

/-- Witness for c10 at a concrete unknown status value. -/
theorem c10_witness :
    adminListHandler listDb (some "secret") (some "secret") (some "bogus") none =
      .okData ((sortNewestFirst
        (listDb.inquiries.filter (fun r => r.status == "bogus"))).take 200) ∧
    (∀ es, adminListHandler listDb (some "secret") (some "secret") (some "bogus")
      none ≠ .badRequest es) ∧
    adminListHandler listDb (some "secret") (some "secret") (some "bogus") none ≠
      .invalidStatus :=
  c10_unknown_status_is_filtered_not_rejected listDb "bogus" (some "secret")
    (by decide) (by decide)

/-- C2: a body is classified Partner exactly when it has an orgType field
or its source field equals the partner-page marker, everything else is
Parent, and the POST handler dispatches on that classification alone,
before either schema result is consulted. -/
theorem c2_classification (env : NotifyEnv) (ch : Channels) (db : Db)
    (b : RawBody) :
    (isPartnerBody b = true ↔
      (hasField b "orgType" = true ∨
       getField b "source" = some (.str "partners-page"))) ∧
    (isPartnerBody b = false → postInquiry env ch db b = parentHandle env ch db b) ∧
    (isPartnerBody b = true → postInquiry env ch db b = partnerHandle env ch db b) := by
  refine ⟨?_, ?_, ?_⟩
  · simp [isPartnerBody]
  · intro h; simp [postInquiry, h]
  · intro h; simp [postInquiry, h]

/-- Witness for c2: a body with an orgType field goes to the partner
branch, the plain parent body goes to the parent branch. -/
theorem c2_witness :
    postInquiry noEnv okChannels emptyDb [("orgType", .str "school")] =
      partnerHandle noEnv okChannels emptyDb [("orgType", .str "school")] ∧
    postInquiry noEnv okChannels emptyDb parentBody =
      parentHandle noEnv okChannels emptyDb parentBody :=
  ⟨(c2_classification noEnv okChannels emptyDb [("orgType", .str "school")]).2.2
      (by decide),
   (c2_classification noEnv okChannels emptyDb parentBody).2.1 (by decide)⟩

/-! Claim C5: the status-update contract. -/

/-- Counterexample to C5: with a valid status and an id matching no
inquiry, the handler still answers the bare ok, not a not-found result;
the claimed NotFound arm does not exist in the code. -/
theorem c5_counterexample :
    (setStatusHandler emptyDb (some "t") (some "t") "00000000-0000-0000-0000-000000000009" (some "read")).2 =
      Resp.ok ∧
    Resp.ok ≠ Resp.notFound ∧
    emptyDb.inquiries.all (fun r => r.id != "00000000-0000-0000-0000-000000000009") = true ∧
    allowedStatuses.contains "read" = true := by
  decide

/-- C5 amended: the result is invalid_status for a status outside the
allowed set, with no storage touched, and otherwise the bare ok whether or
not any inquiry matches the id; matching rows get the new status and a
fresh updated timestamp, and no not-found result is ever produced. -/
theorem c5_set_status_amended (db : Db) (tok : Option String) (idp : String)
    (bs : Option String) :
    (allowedStatuses.contains (bs.getD "") = false →
      setStatusHandler db tok tok idp bs = (db, .invalidStatus)) ∧
    (allowedStatuses.contains (bs.getD "") = true →
      setStatusHandler db tok tok idp bs =
        ({ db with inquiries := db.inquiries.map (fun r =>
            if r.id = idp then
              { r with status := bs.getD "", updatedAt := db.now }
            else r) }, .ok)) ∧
    (setStatusHandler db tok tok idp bs).2 ≠ .notFound := by
  refine ⟨?_, ?_, ?_⟩
  · intro h
    have h2 : bs.getD "" ∉ allowedStatuses := by simpa using h
    simp [setStatusHandler, h2]
  · intro h
    have h2 : bs.getD "" ∈ allowedStatuses := by simpa using h
    simp [setStatusHandler, h2]
  · simp only [setStatusHandler, ne_eq, not_true_eq_false, if_false]
    split
    · simp
    · simp

/-- Witness for c5: a bogus status is rejected with the database
untouched, and a valid status on an absent id still answers ok. -/
theorem c5_witness :
    setStatusHandler emptyDb none none "00000000-0000-0000-0000-000000000009" (some "bogus") =
      (emptyDb, .invalidStatus) ∧
    (setStatusHandler emptyDb none none "00000000-0000-0000-0000-000000000009" (some "archived")).2 ≠ .notFound :=
  ⟨(c5_set_status_amended emptyDb none "00000000-0000-0000-0000-000000000009" (some "bogus")).1 (by decide),
   (c5_set_status_amended emptyDb none "00000000-0000-0000-0000-000000000009" (some "archived")).2.2⟩

/-! Claim C1: unresolvable age-group codes roll the whole submission back. -/

/-- When no active reference row matches any submitted code, the lookup
resolves to the empty list. -/
lemma resolveAgeGroups_eq_nil (table : List AgeGroupRow) (codes : List String)
    (h : ∀ r ∈ table, r.active = true → codes.contains r.code = false) :
    resolveAgeGroups table codes = [] := by
  unfold resolveAgeGroups
  have hf : table.filter (fun r => codes.contains r.code && r.active) = [] := by
    rw [List.filter_eq_nil_iff]
    intro r hr
    cases hact : r.active
    · simp [hact]
    · have hc := h r hr hact
      simp [hact]
      simpa using hc
  rw [hf]
  rfl

/-- C1: a parent submission that validates but whose age-group codes match
no active reference row answers the generic server error and leaves the
database exactly as it was: the inquiry insert that already ran inside the
transaction is rolled back, so no inquiry, detail, or join row persists. -/
theorem c1_unknown_age_groups_roll_back (env : NotifyEnv) (ch : Channels)
    (db : Db) (b : RawBody) (p : ParentPayload)
    (hclass : isPartnerBody b = false)
    (hval : parentValidate b = .ok p)
    (hag : ∀ r ∈ db.ageGroups, r.active = true →
      p.ageGroups.contains r.code = false) :
    postInquiry env ch db b =
      (db, ["[inquiries] error: Invalid age group codes"], .serverError) ∧
    (postInquiry env ch db b).1.inquiries = db.inquiries ∧
    (postInquiry env ch db b).1.inquiryParent = db.inquiryParent ∧
    (postInquiry env ch db b).1.inquiryAgeGroups = db.inquiryAgeGroups := by
  have hresolve : resolveAgeGroups db.ageGroups p.ageGroups = [] :=
    resolveAgeGroups_eq_nil db.ageGroups p.ageGroups hag
  have hmain : postInquiry env ch db b =
      (db, ["[inquiries] error: Invalid age group codes"], .serverError) := by
    simp [postInquiry, hclass, parentHandle, hval, parentTransaction, hresolve]
  exact ⟨hmain, by rw [hmain], by rw [hmain], by rw [hmain]⟩

/-- A syntactically valid parent body whose only code has no active row. -/
def parentBodyInactive : RawBody :=
  [("firstName", .str "Ann"), ("lastName", .str "Lee"),
   ("email", .str "ann@x.co"), ("ageGroups", .arr [.str "16+"]),
   ("consent", .bool true)]

/-- Witness for c1: the 16+ row of the sample table is inactive, so the
submission is rejected as a server error with the state untouched. -/
theorem c1_witness :
    postInquiry noEnv okChannels emptyDb parentBodyInactive =
      (emptyDb, ["[inquiries] error: Invalid age group codes"], .serverError) ∧
    (postInquiry noEnv okChannels emptyDb parentBodyInactive).1.inquiries =
      emptyDb.inquiries ∧
    (postInquiry noEnv okChannels emptyDb parentBodyInactive).1.inquiryParent =
      emptyDb.inquiryParent ∧
    (postInquiry noEnv okChannels emptyDb
      parentBodyInactive).1.inquiryAgeGroups = emptyDb.inquiryAgeGroups :=
  c1_unknown_age_groups_roll_back noEnv okChannels emptyDb parentBodyInactive
    (parentBuild parentBodyInactive) (by decide) (by rfl) (by decide)

/-! Claim C6: the conditional orgTypeOther label. -/

/-- An empty error component comes from a successful field check. -/
lemma errsOf_eq_nil {α : Type} {x : Except String α} (h : errsOf x = []) :
    ∃ v, x = .ok v := by
  cases x with
  | error e => simp [errsOf] at h
  | ok v => exact ⟨v, rfl⟩

/-- A successful partner validation means no field errored, and the
payload is the assembled one. -/
lemma partnerValidate_ok {b : RawBody} {p : PartnerPayload}
    (h : partnerValidate b = .ok p) :
    partnerErrs b = [] ∧ p = partnerBuild b := by
  unfold partnerValidate at h
  by_cases hn : partnerErrs b = []
  · rw [if_pos hn] at h
    refine ⟨hn, ?_⟩
    cases h
    rfl
  · rw [if_neg hn] at h
    exact absurd h (by simp)

/-- A successful orgType check pins the raw field. -/
lemma reqOrgType_ok_getField {b : RawBody} {s : String}
    (h : reqOrgType b = .ok s) : getField b "orgType" = some (.str s) := by
  unfold reqOrgType at h
  split at h
  · exact absurd h (by simp)
  · split at h
    · cases h
      assumption
    · exact absurd h (by simp)
  · exact absurd h (by simp)

/-- When the orgType field is the string other, a successful orgTypeOther
check must have found a supplied label. -/
lemma reqOrgTypeOther_ok_isSome {b : RawBody} {v : Option String}
    (h : reqOrgTypeOther b = .ok v)
    (ho : getField b "orgType" = some (.str "other")) : v.isSome = true := by
  unfold reqOrgTypeOther at h
  split at h
  · rw [ho] at h
    simp at h
  · split at h
    · exact absurd h (by simp)
    · split at h
      · exact absurd h (by simp)
      · cases h
        rfl
  · exact absurd h (by simp)

/-- A present field makes the presence test true. -/
lemma hasField_of_getField {b : RawBody} {k : String} {v : JVal}
    (h : getField b k = some v) : hasField b k = true := by
  unfold getField at h
  unfold hasField
  cases hf : b.find? (fun kv => kv.1 == k) with
  | none => rw [hf] at h; exact absurd h (by simp)
  | some kv => rfl

/-- A body that validates as partner is classified partner. -/
lemma isPartnerBody_of_validate {b : RawBody} {p : PartnerPayload}
    (h : partnerValidate b = .ok p) : isPartnerBody b = true := by
  obtain ⟨hn, _⟩ := partnerValidate_ok h
  have h1 : errsOf (reqOrgType b) = [] := by
    simp [partnerErrs, List.append_eq_nil] at hn
    exact hn.1
  obtain ⟨s, hs⟩ := errsOf_eq_nil h1
  have hg := reqOrgType_ok_getField hs
  unfold isPartnerBody
  rw [hasField_of_getField hg]
  rfl

/-- The database state after a committed partner transaction. -/
def partnerCommitDb (db : Db) (p : PartnerPayload) (org : OrgTypeRow) : Db :=
  { db with
      inquiries := db.inquiries ++ [partnerInquiryRow db p],
      nextId := db.nextId + 1,
      inquiryPartner := db.inquiryPartner ++ [partnerDetailRow db p org] }

/-- The committed shape of a partner submission whose organization type
resolves: the response is created with the generated id, and exactly one
detail row is appended, holding the conditional label. -/
lemma partner_commit (env : NotifyEnv) (ch : Channels) (db : Db) (b : RawBody)
    (p : PartnerPayload) (org : OrgTypeRow)
    (hv : partnerValidate b = .ok p)
    (hr : resolveOrgType db.orgTypes p.orgType = some org) :
    postInquiry env ch db b = (partnerCommitDb db p org,
      partnerNotifications env ch p, .created (genId db.nextId)) := by
  have hcls := isPartnerBody_of_validate hv
  simp [postInquiry, hcls, partnerHandle, hv, partnerTransaction, hr,
    partnerCommitDb]

/-- C6: orgType other with no supplied label fails validation with a 400
and an untouched state; orgType other with a supplied label succeeds and
persists that label on the partner detail row; any other orgType stores a
null label even when one was supplied. -/
theorem c6_org_type_other_label (env : NotifyEnv) (ch : Channels) (db : Db)
    (b : RawBody) :
    ((getField b "orgType" = some (.str "other") ∧
      getField b "orgTypeOther" = none) →
      ∃ es, postInquiry env ch db b = (db, [], .badRequest es) ∧ es ≠ []) ∧
    (∀ p org, partnerValidate b = .ok p → p.orgType = "other" →
      resolveOrgType db.orgTypes p.orgType = some org →
      p.orgTypeOther.isSome = true ∧
      ∃ db2, postInquiry env ch db b =
          (db2, partnerNotifications env ch p, .created (genId db.nextId)) ∧
        db2.inquiryPartner = db.inquiryPartner ++
          [{ inquiryId := genId db.nextId, orgTypeId := org.id,
             orgTypeOther := p.orgTypeOther, orgName := p.orgName }]) ∧
    (∀ p org, partnerValidate b = .ok p → p.orgType ≠ "other" →
      resolveOrgType db.orgTypes p.orgType = some org →
      ∃ db2, postInquiry env ch db b =
          (db2, partnerNotifications env ch p, .created (genId db.nextId)) ∧
        db2.inquiryPartner = db.inquiryPartner ++
          [{ inquiryId := genId db.nextId, orgTypeId := org.id,
             orgTypeOther := none, orgName := p.orgName }]) := by
  refine ⟨?_, ?_, ?_⟩
  · rintro ⟨h1, h2⟩
    have hcls : isPartnerBody b = true := by
      unfold isPartnerBody
      rw [hasField_of_getField h1]
      rfl
    have hoto : reqOrgTypeOther b = .error "orgTypeOther is required" := by
      unfold reqOrgTypeOther
      rw [h2, h1]
      rfl
    have hne : partnerErrs b ≠ [] := by
      intro hnil
      simp [partnerErrs, List.append_eq_nil] at hnil
      have := hnil.2.1
      rw [hoto] at this
      simp [errsOf] at this
    have hval : partnerValidate b = .error (partnerErrs b) := by
      unfold partnerValidate
      rw [if_neg hne]
    refine ⟨partnerErrs b, ?_, hne⟩
    simp [postInquiry, hcls, partnerHandle, hval]
  · intro p org hv ho hr
    have hsome : p.orgTypeOther.isSome = true := by
      obtain ⟨hn, hp⟩ := partnerValidate_ok hv
      have h2 : errsOf (reqOrgTypeOther b) = [] := by
        simp [partnerErrs, List.append_eq_nil] at hn
        exact hn.2.1
      have h1 : errsOf (reqOrgType b) = [] := by
        simp [partnerErrs, List.append_eq_nil] at hn
        exact hn.1
      obtain ⟨v, hvv⟩ := errsOf_eq_nil h2
      obtain ⟨s, hss⟩ := errsOf_eq_nil h1
      have hgo := reqOrgType_ok_getField hss
      have hps : p.orgType = s := by
        rw [hp]
        simp [partnerBuild, hss, Except.toOption]
      rw [hps] at ho
      rw [ho] at hgo
      have hvs := reqOrgTypeOther_ok_isSome hvv hgo
      have hpo : p.orgTypeOther = v := by
        rw [hp]
        simp [partnerBuild, hvv, Except.toOption]
      rw [hpo]
      exact hvs
    have hpc := partner_commit env ch db b p org hv hr
    refine ⟨hsome, partnerCommitDb db p org, hpc, ?_⟩
    simp [partnerCommitDb, partnerDetailRow, ho]
  · intro p org hv ho hr
    have hpc := partner_commit env ch db b p org hv hr
    refine ⟨partnerCommitDb db p org, hpc, ?_⟩
    simp [partnerCommitDb, partnerDetailRow, ho]

/-- A partner body with orgType other and a supplied label. -/
def partnerBodyOther : RawBody :=
  [("orgType", .str "other"), ("orgTypeOther", .str "Rotary Club"),
   ("orgName", .str "Rotary"), ("firstName", .str "Bo"),
   ("lastName", .str "Kim"), ("email", .str "bo@x.co"),
   ("consent", .bool true)]

/-- A partner body with orgType school and a supplied label. -/
def partnerBodySchool : RawBody :=
  [("orgType", .str "school"), ("orgTypeOther", .str "Rotary Club"),
   ("orgName", .str "Lake School"), ("firstName", .str "Bo"),
   ("lastName", .str "Kim"), ("email", .str "bo@x.co"),
   ("consent", .bool true)]

/-- Witness for c6 at the three concrete cases of the claim. -/
theorem c6_witness :
    (∃ es, postInquiry noEnv okChannels emptyDb [("orgType", .str "other")] =
        (emptyDb, [], .badRequest es) ∧ es ≠ []) ∧
    ((partnerBuild partnerBodyOther).orgTypeOther.isSome = true ∧
      ∃ db2, postInquiry noEnv okChannels emptyDb partnerBodyOther =
          (db2, partnerNotifications noEnv okChannels
            (partnerBuild partnerBodyOther), .created (genId emptyDb.nextId)) ∧
        db2.inquiryPartner = emptyDb.inquiryPartner ++
          [{ inquiryId := genId emptyDb.nextId, orgTypeId := "ot2",
             orgTypeOther := (partnerBuild partnerBodyOther).orgTypeOther,
             orgName := (partnerBuild partnerBodyOther).orgName }]) ∧
    (∃ db2, postInquiry noEnv okChannels emptyDb partnerBodySchool =
        (db2, partnerNotifications noEnv okChannels
          (partnerBuild partnerBodySchool), .created (genId emptyDb.nextId)) ∧
      db2.inquiryPartner = emptyDb.inquiryPartner ++
        [{ inquiryId := genId emptyDb.nextId, orgTypeId := "ot1",
           orgTypeOther := none,
           orgName := (partnerBuild partnerBodySchool).orgName }]) :=
  ⟨(c6_org_type_other_label noEnv okChannels emptyDb
      [("orgType", .str "other")]).1 ⟨rfl, rfl⟩,
   (c6_org_type_other_label noEnv okChannels emptyDb partnerBodyOther).2.1
      (partnerBuild partnerBodyOther)
      { id := "ot2", code := "other", label := "Other", active := true }
      (by rfl) (by rfl) (by rfl),
   (c6_org_type_other_label noEnv okChannels emptyDb partnerBodySchool).2.2
      (partnerBuild partnerBodySchool)
      { id := "ot1", code := "school", label := "School", active := true }
      (by rfl) (by decide) (by rfl)⟩

/-! Claim C7: notification outcomes never reach the response. -/

/-- C7: whenever the transaction of a submission commits, the response is
the created answer with the new id, for every possible behavior of the
notification channel oracles; channel failures are swallowed inside the
dispatch functions and cannot change the response. -/
theorem c7_notification_failures_isolated (env : NotifyEnv) (ch : Channels)
    (db : Db) (b : RawBody) :
    (∀ p db2 i, isPartnerBody b = false → parentValidate b = .ok p →
      parentTransaction db p = .ok (db2, i) →
      (postInquiry env ch db b).2.2 = .created i) ∧
    (∀ p db2 i, isPartnerBody b = true → partnerValidate b = .ok p →
      partnerTransaction db p = .ok (db2, i) →
      (postInquiry env ch db b).2.2 = .created i) := by
  constructor
  · intro p db2 i hcls hv htx
    simp [postInquiry, hcls, parentHandle, hv, htx]
  · intro p db2 i hcls hv htx
    simp [postInquiry, hcls, partnerHandle, hv, htx]

/-- The committed state of the sample parent submission. -/
def parentBodyCommitDb : Db :=
  match parentTransaction emptyDb (parentBuild parentBody) with
  | .ok (d, _) => d
  | .error _ => emptyDb

/-- Witness for c7: with the Slack webhook configured and every channel
failing, the committed parent submission still answers created. -/
theorem c7_witness :
    (postInquiry slackEnv failChannels emptyDb parentBody).2.2 =
      .created "id-0" :=
  (c7_notification_failures_isolated slackEnv failChannels emptyDb
    parentBody).1 (parentBuild parentBody) parentBodyCommitDb "id-0"
    (by decide) (by rfl) (by rfl)

/-! Claim C3: the primary age group is the lowest sort-order match. -/

/-- C3: a committed parent transaction appends exactly one detail row,
whose primary age group is the head of the resolved list; that head has
the least sort order among all resolved rows, and the resolved list only
depends on which codes were submitted, not on their order. -/
theorem c3_primary_age_group_min_sort (db : Db) (p : ParentPayload) (db2 : Db)
    (i : String) (h : parentTransaction db p = .ok (db2, i)) :
    ∃ a0 rest, resolveAgeGroups db.ageGroups p.ageGroups = a0 :: rest ∧
      db2.inquiryParent = db.inquiryParent ++
        [{ inquiryId := i, numberOfKids := p.numberOfKids,
           primaryAgeGroupId := a0.id }] ∧
      (∀ r ∈ resolveAgeGroups db.ageGroups p.ageGroups,
        a0.sortOrder ≤ r.sortOrder) ∧
      (∀ codes2, (∀ c, codes2.contains c = p.ageGroups.contains c) →
        resolveAgeGroups db.ageGroups codes2 =
          resolveAgeGroups db.ageGroups p.ageGroups) := by
  simp only [parentTransaction] at h
  cases hm : resolveAgeGroups db.ageGroups p.ageGroups with
  | nil =>
      rw [hm] at h
      exact absurd h (by simp)
  | cons a0 rest =>
      rw [hm] at h
      refine ⟨a0, rest, rfl, ?_, ?_, ?_⟩
      · cases hopt : p.newsletterOptIn <;>
          · rw [hopt] at h
            simp at h
            obtain ⟨hdb, hi⟩ := h
            rw [← hdb, ← hi]
      · have hs : List.Sorted
            (fun a b : AgeGroupRow => a.sortOrder ≤ b.sortOrder)
            (a0 :: rest) := by
          have hsi := List.sorted_insertionSort
            (fun a b : AgeGroupRow => a.sortOrder ≤ b.sortOrder)
            (db.ageGroups.filter
              (fun r => p.ageGroups.contains r.code && r.active))
          unfold resolveAgeGroups at hm
          rw [hm] at hsi
          exact hsi
        intro r hr
        rcases List.mem_cons.mp hr with hEq | hmem
        · rw [hEq]
        · exact List.rel_of_sorted_cons hs r hmem
      · intro codes2 hcc
        rw [← hm]
        unfold resolveAgeGroups
        exact congrArg _ (List.filter_congr (fun r _ => by rw [hcc r.code]))

/-- Witness for c3: with reference sort order placing the 6-9 row first,
the submission listing 9-13 before 6-9 still stores the 6-9 row id. -/
theorem c3_witness :
    ∃ a0 rest, resolveAgeGroups emptyDb.ageGroups
        (parentBuild parentBody).ageGroups = a0 :: rest ∧
      parentBodyCommitDb.inquiryParent = emptyDb.inquiryParent ++
        [{ inquiryId := "id-0",
           numberOfKids := (parentBuild parentBody).numberOfKids,
           primaryAgeGroupId := a0.id }] ∧
      (∀ r ∈ resolveAgeGroups emptyDb.ageGroups
          (parentBuild parentBody).ageGroups,
        a0.sortOrder ≤ r.sortOrder) ∧
      (∀ codes2, (∀ c, codes2.contains c =
          (parentBuild parentBody).ageGroups.contains c) →
        resolveAgeGroups emptyDb.ageGroups codes2 =
          resolveAgeGroups emptyDb.ageGroups
            (parentBuild parentBody).ageGroups) :=
  c3_primary_age_group_min_sort emptyDb (parentBuild parentBody)
    parentBodyCommitDb "id-0" (by rfl)

/-! Claim C4: the newsletter upsert never duplicates an email. -/

/-- Inversion of a created parent response: it must have come from the
committed transaction on the validated payload. -/
lemma postInquiry_parent_created {env : NotifyEnv} {ch : Channels} {db : Db}
    {b : RawBody} {p : ParentPayload} {dbA : Db} {lA : List String}
    {iA : String}
    (hcls : isPartnerBody b = false) (hv : parentValidate b = .ok p)
    (hpost : postInquiry env ch db b = (dbA, lA, .created iA)) :
    parentTransaction db p = .ok (dbA, iA) := by
  simp only [postInquiry, hcls, Bool.false_eq_true, if_false, parentHandle,
    hv] at hpost
  cases htx : parentTransaction db p with
  | error e =>
      rw [htx] at hpost
      simp at hpost
  | ok pr =>
      obtain ⟨d, j⟩ := pr
      rw [htx] at hpost
      simp at hpost
      rw [hpost.1, hpost.2.2]

/-- The newsletter table a committed opted-in parent transaction leaves
behind is the upsert of the incoming one. -/
lemma parentTransaction_newsletter {db : Db} {p : ParentPayload} {db2 : Db}
    {i : String}
    (h : parentTransaction db p = .ok (db2, i))
    (hopt : p.newsletterOptIn = true) :
    db2.newsletter = upsertNewsletter db.newsletter p.email p.firstName
      p.lastName p.source db.now := by
  simp only [parentTransaction] at h
  cases hm : resolveAgeGroups db.ageGroups p.ageGroups with
  | nil =>
      rw [hm] at h
      exact absurd h (by simp)
  | cons a0 rest =>
      rw [hm, hopt] at h
      simp at h
      rw [← h.1]

/-- One upsert on a table holding at most one row for the email leaves
exactly one row for it, carrying the new names, the subscribed status,
and the fresh update timestamp. -/
lemma upsert_filter (t : List NewsletterRow) (e fn ln src : String) (now : Nat)
    (h : (t.filter (fun r => r.email == e)).length ≤ 1) :
    ((upsertNewsletter t e fn ln src now).filter
      (fun r => r.email == e)).length = 1 ∧
    ∀ r ∈ (upsertNewsletter t e fn ln src now).filter
      (fun r => r.email == e),
      r.firstName = fn ∧ r.lastName = ln ∧ r.status = "subscribed" ∧
      r.updatedAt = now := by
  unfold upsertNewsletter
  by_cases hany : t.any (fun r => r.email == e) = true
  · rw [if_pos hany]
    have hpf : ∀ r : NewsletterRow,
        (((fun r : NewsletterRow =>
          if r.email == e then
            { r with firstName := fn, lastName := ln, status := "subscribed",
                     updatedAt := now }
          else r) r).email == e) = (r.email == e) := by
      intro r
      by_cases hre : (r.email == e) = true
      · simp [hre]
      · simp [hre]
    rw [List.filter_map]
    have hfc : t.filter ((fun r : NewsletterRow => r.email == e) ∘
        (fun r : NewsletterRow =>
          if r.email == e then
            { r with firstName := fn, lastName := ln, status := "subscribed",
                     updatedAt := now }
          else r)) = t.filter (fun r => r.email == e) :=
      List.filter_congr (fun r _ => hpf r)
    rw [hfc]
    obtain ⟨x, hx, hpx⟩ := List.any_eq_true.mp hany
    have hxin : x ∈ t.filter (fun r => r.email == e) :=
      List.mem_filter.mpr ⟨hx, hpx⟩
    have hlen : 0 < (t.filter (fun r => r.email == e)).length :=
      List.length_pos.mpr (List.ne_nil_of_mem hxin)
    constructor
    · rw [List.length_map]
      omega
    · intro r hr
      obtain ⟨y, hy, hyr⟩ := List.mem_map.mp hr
      have hye : (y.email == e) = true := (List.mem_filter.mp hy).2
      rw [← hyr]
      simp [hye]
  · rw [if_neg hany]
    have hnil : t.filter (fun r => r.email == e) = [] := by
      rw [List.filter_eq_nil_iff]
      intro a ha
      intro hpa
      exact hany (List.any_eq_true.mpr ⟨a, ha, hpa⟩)
    rw [List.filter_append, hnil]
    simp

/-- C4: two committed opted-in parent submissions with the same email
leave exactly one newsletter row for that email, carrying the second
submission name fields, the subscribed status, and the update timestamp of
the second run; no duplicate is created. -/
theorem c4_newsletter_upsert_no_duplicates (env : NotifyEnv) (ch : Channels)
    (db : Db) (b1 b2 : RawBody) (p1 p2 : ParentPayload) (dbA dbB : Db)
    (lA lB : List String) (iA iB : String) (e : String)
    (hu : (db.newsletter.filter (fun r => r.email == e)).length ≤ 1)
    (hc1 : isPartnerBody b1 = false) (hv1 : parentValidate b1 = .ok p1)
    (he1 : p1.email = e) (hn1 : p1.newsletterOptIn = true)
    (h1 : postInquiry env ch db b1 = (dbA, lA, .created iA))
    (hc2 : isPartnerBody b2 = false) (hv2 : parentValidate b2 = .ok p2)
    (he2 : p2.email = e) (hn2 : p2.newsletterOptIn = true)
    (h2 : postInquiry env ch dbA b2 = (dbB, lB, .created iB)) :
    (dbB.newsletter.filter (fun r => r.email == e)).length = 1 ∧
    ∀ r ∈ dbB.newsletter.filter (fun r => r.email == e),
      r.firstName = p2.firstName ∧ r.lastName = p2.lastName ∧
      r.status = "subscribed" ∧ r.updatedAt = dbA.now := by
  have htx1 := postInquiry_parent_created hc1 hv1 h1
  have htx2 := postInquiry_parent_created hc2 hv2 h2
  have hnlA : dbA.newsletter = upsertNewsletter db.newsletter p1.email
      p1.firstName p1.lastName p1.source db.now :=
    parentTransaction_newsletter htx1 hn1
  have hnlB : dbB.newsletter = upsertNewsletter dbA.newsletter p2.email
      p2.firstName p2.lastName p2.source dbA.now :=
    parentTransaction_newsletter htx2 hn2
  have hstep1 := upsert_filter db.newsletter e p1.firstName p1.lastName
    p1.source db.now hu
  rw [← he1] at hstep1
  rw [← hnlA] at hstep1
  have huA : (dbA.newsletter.filter (fun r => r.email == e)).length ≤ 1 := by
    rw [he1] at hstep1
    rw [hstep1.1]
  have hstep2 := upsert_filter dbA.newsletter e p2.firstName p2.lastName
    p2.source dbA.now huA
  rw [← he2] at hstep2
  rw [← hnlB] at hstep2
  rw [he2] at hstep2
  exact hstep2

/-- A second parent body for the same email with different names. -/
def parentBody2 : RawBody :=
  [("firstName", .str "Anna"), ("lastName", .str "Leeds"),
   ("email", .str "ann@x.co"),
   ("ageGroups", .arr [.str "6-9"]),
   ("consent", .bool true), ("newsletterOptIn", .bool true)]

/-- The state after the second sample submission. -/
def parentBody2CommitDb : Db :=
  match postInquiry noEnv okChannels parentBodyCommitDb parentBody2 with
  | (d, _, _) => d

/-- Witness for c4 at two concrete submissions for the same address. -/
theorem c4_witness :
    (parentBody2CommitDb.newsletter.filter
      (fun r => r.email == "ann@x.co")).length = 1 ∧
    ∀ r ∈ parentBody2CommitDb.newsletter.filter
      (fun r => r.email == "ann@x.co"),
      r.firstName = (parentBuild parentBody2).firstName ∧
      r.lastName = (parentBuild parentBody2).lastName ∧
      r.status = "subscribed" ∧ r.updatedAt = parentBodyCommitDb.now :=
  c4_newsletter_upsert_no_duplicates noEnv okChannels emptyDb parentBody
    parentBody2 (parentBuild parentBody) (parentBuild parentBody2)
    parentBodyCommitDb parentBody2CommitDb
    (parentNotifications noEnv okChannels (parentBuild parentBody))
    (parentNotifications noEnv okChannels (parentBuild parentBody2))
    "id-0" "id-1" "ann@x.co"
    (by decide) (by decide) (by rfl) (by rfl) (by rfl) (by rfl)
    (by decide) (by rfl) (by rfl) (by rfl) (by rfl)

/-! Claim C8: the admin listing filter versus the spec wording. The
listing builds an ILIKE pattern around the raw query text, so a query
containing a LIKE metacharacter (percent, underscore, backslash) is
interpreted as a pattern, not as a literal substring. -/

/-- A character list free of LIKE metacharacters. -/
def noMeta (s : List Char) : Bool :=
  s.all (fun c => c != '%' && c != '_' && c != '\\')

/-- Evaluation of a basic-latin character code construction. -/
lemma toNat_ofNat_small (n : Nat) (h1 : 97 ≤ n) (h2 : n ≤ 122) :
    (Char.ofNat n).toNat = n := by
  have hv : n.isValidChar := Or.inl (by omega)
  rw [Char.ofNat, dif_pos hv]
  rfl

/-- Lowering never introduces a LIKE metacharacter. -/
lemma toLower_noMeta {c : Char}
    (h : (c != '%' && c != '_' && c != '\\') = true) :
    (Char.toLower c != '%' && Char.toLower c != '_' &&
      Char.toLower c != '\\') = true := by
  unfold Char.toLower
  by_cases hc : c.toNat ≥ 65 ∧ c.toNat ≤ 90
  · rw [if_pos hc]
    have hv : (Char.ofNat (c.toNat + 32)).toNat = c.toNat + 32 :=
      toNat_ofNat_small (c.toNat + 32) (by omega) (by omega)
    simp only [Bool.and_eq_true, bne_iff_ne, ne_eq]
    refine ⟨⟨?_, ?_⟩, ?_⟩ <;>
      · intro heq
        have := congrArg Char.toNat heq
        rw [hv] at this
        simp at this
        omega
  · rw [if_neg hc]
    exact h

/-- Lowering a metacharacter-free list keeps it metacharacter-free. -/
lemma lowerStr_noMeta {s : List Char} (h : noMeta s = true) :
    noMeta (lowerStr s) = true := by
  unfold noMeta lowerStr at *
  rw [List.all_map]
  rw [List.all_eq_true] at h ⊢
  exact fun c hc => toLower_noMeta (h c hc)

/-- The empty suffix is always collected. -/
lemma mem_nil_suffixes (s : List Char) : [] ∈ suffixes s := by
  induction s with
  | nil => simp [suffixes]
  | cons c rest ih => simp [suffixes, ih]

/-- Unfolding equation of the matcher at the empty pattern. -/
lemma likeMatch_nil (s : List Char) : likeMatch [] s = s.isEmpty := rfl

/-- Unfolding equation of the matcher at a nonempty pattern. -/
lemma likeMatch_cons (c : Char) (ps s : List Char) :
    likeMatch (c :: ps) s =
      if c = '%' then (suffixes s).any (fun t => likeMatch ps t)
      else if c = '_' then
        match s with
        | [] => false
        | _ :: s2 => likeMatch ps s2
      else if c = '\\' then
        match ps with
        | [] => false
        | c2 :: ps2 =>
            match s with
            | [] => false
            | d :: s2 => c2 == d && likeMatch ps2 s2
      else
        match s with
        | [] => false
        | d :: s2 => c == d && likeMatch ps s2 := by
  rw [likeMatch.eq_def]

/-- A metacharacter-free pattern followed by one percent matches exactly
the strings it prefixes. -/
lemma like_lit_pct (ql : List Char) (h : noMeta ql = true) (t : List Char) :
    likeMatch (ql ++ ['%']) t = ql.isPrefixOf t := by
  induction ql generalizing t with
  | nil =>
      have h1 : likeMatch ([] ++ ['%']) t =
          ((suffixes t).any fun u => likeMatch [] u) := by
        rw [List.nil_append, likeMatch_cons]
        simp
      have hany : ((suffixes t).any fun u => likeMatch [] u) = true :=
        List.any_eq_true.mpr ⟨[], mem_nil_suffixes t, by rw [likeMatch_nil]; rfl⟩
      have h2 : List.isPrefixOf ([] : List Char) t = true := by
        cases t <;> rfl
      rw [h1, hany, h2]
  | cons c ql ih =>
      have hh : (c != '%' && c != '_' && c != '\\') = true := by
        unfold noMeta at h
        exact (List.all_eq_true.mp h) c (List.mem_cons_self c ql)
      have hq : noMeta ql = true := by
        unfold noMeta at h ⊢
        rw [List.all_eq_true] at h ⊢
        exact fun x hx => h x (List.mem_cons_of_mem c hx)
      simp only [Bool.and_eq_true, bne_iff_ne, ne_eq] at hh
      obtain ⟨⟨hc1, hc2⟩, hc3⟩ := hh
      cases t with
      | nil =>
          rw [List.cons_append, likeMatch_cons]
          simp [hc1, hc2, hc3, List.isPrefixOf]
      | cons d t2 =>
          rw [List.cons_append, likeMatch_cons]
          simp only [if_neg hc1, if_neg hc2, if_neg hc3]
          rw [ih hq t2]
          simp [List.isPrefixOf]

/-- ILIKE of a value against the percent-wrapped query is the
case-insensitive substring test, for metacharacter-free queries. -/
lemma ilike_wrap (v q : String) (hq : noMeta q.toList = true) :
    ilike v ("%" ++ q ++ "%") = containsCI v q := by
  unfold ilike
  have hl : ("%" ++ q ++ "%").toList = '%' :: (q.toList ++ ['%']) := by
    simp [String.toList, String.data_append]
  rw [hl]
  unfold lowerStr
  rw [List.map_cons, List.map_append]
  have hpc : Char.toLower '%' = '%' := by decide
  rw [hpc]
  rw [likeMatch_cons]
  simp only [if_pos rfl]
  have hlq : noMeta (q.toList.map Char.toLower) = true := lowerStr_noMeta hq
  have hstep : ∀ u, likeMatch (q.toList.map Char.toLower ++
      (List.map Char.toLower ['%'])) u =
      (q.toList.map Char.toLower).isPrefixOf u := by
    intro u
    rw [List.map_cons]
    rw [hpc]
    exact like_lit_pct (q.toList.map Char.toLower) hlq u
  simp only [hstep]
  rfl

/-- Counterexample to C8: with the one-row database and the query set to a
lone percent sign, the listing returns the row although neither its full
name nor its email contains a percent character, so the listing is not the
claimed substring filter. -/
theorem c8_counterexample :
    adminList listDb none (some "%") ≠ adminListSpec listDb none (some "%") := by
  decide

/-- C8 amended: for an authorized listing whose text query is free of the
LIKE metacharacters (percent, underscore, backslash), the result is
exactly the spec-side listing: the conjunction of the present filters with
the query matched as a case-insensitive substring of full name or email,
newest first, capped at 200 rows; queries containing a metacharacter are
interpreted as LIKE patterns instead. -/
theorem c8_admin_listing_amended (db : Db) (hdr : Option String)
    (stq qQ : Option String)
    (hq : ∀ qs, queryParam qQ = some qs → noMeta qs.toList = true) :
    adminListHandler db hdr hdr stq qQ = .okData (adminListSpec db stq qQ) := by
  simp only [adminListHandler, ne_eq, not_true_eq_false, if_false]
  congr 1
  unfold adminList adminListSpec
  cases hq2 : queryParam qQ with
  | none =>
      cases hst : queryParam stq with
      | none =>
          simp [qCondition]
      | some st =>
          simp [qCondition]
  | some qs =>
      have hil : ∀ v, ilike v ("%" ++ qs ++ "%") = containsCI v qs :=
        fun v => ilike_wrap v qs (hq qs hq2)
      cases hst : queryParam stq with
      | none =>
          have hfil : db.inquiries.filter (fun r => qCondition (some qs) r) =
              db.inquiries.filter (fun r =>
                containsCI r.fullName qs || containsCI r.email qs) :=
            List.filter_congr (fun r _ => by simp [qCondition, hil])
          simp only [hfil]
          simp
      | some st =>
          have hfil : db.inquiries.filter
              (fun r => r.status == st && qCondition (some qs) r) =
              db.inquiries.filter (fun r => r.status == st &&
                (containsCI r.fullName qs || containsCI r.email qs)) :=
            List.filter_congr (fun r _ => by simp [qCondition, hil])
          simp only [hfil]

/-- Witness for c8 at a metacharacter-free query matching the sample row
case-insensitively. -/
theorem c8_witness :
    adminListHandler listDb (some "s") (some "s") none (some "smith") =
      .okData (adminListSpec listDb none (some "smith")) :=
  c8_admin_listing_amended listDb (some "s") none (some "smith")
    (by intro qs h; simp [queryParam] at h; rw [← h]; decide)

end Turtleback
